import Mathlib

/-!
Verification of the Timesheet-Service core (validation layer and time-entry
service) against its specification.  The definitions below are a shallow
embedding of `src/controllers/timeEntryController.ts`,
`src/middleware/validation.ts`, `src/models/TimeEntry.ts` and
`src/routes/timeEntries.ts`.  JavaScript `Date` values are modelled as
integer milliseconds, JS numbers occurring in `hours` as rationals, the
Mongo collection as a list of documents, and each Express handler as a pure
function from its inputs (current time, store state, request data) to a
response envelope together with the resulting store state.
-/

namespace Timesheet

/-- The `status` enum of the TimeEntry schema
(`['draft', 'submitted', 'approved', 'rejected']`). -/
inductive Status where
  | draft
  | submitted
  | approved
  | rejected
deriving DecidableEq, Repr

/-- A JS `Date`, modelled as milliseconds since the epoch. -/
abbrev DateMs := Int

/-- A stored TimeEntry document (fields of `ITimeEntry` in
`src/models/TimeEntry.ts`; `id` is the store-assigned `_id`; the
store-managed `createdAt`/`updatedAt` bookkeeping timestamps are not
modelled). -/
structure TimeEntry where
  id : String
  userId : String
  weekStart : DateMs
  weekEnd : DateMs
  hours : List ℚ
  notes : String
  status : Status
  submittedAt : Option DateMs
  approvedAt : Option DateMs
  approvedBy : Option String
deriving DecidableEq, Repr

/-- The Mongo collection of TimeEntry documents. -/
abbrev Store := List TimeEntry

/-- The pagination block returned by the list endpoint. -/
structure Pagination where
  page : Nat
  limit : Nat
  total : Nat
  pages : Nat
deriving DecidableEq, Repr

/-- A response envelope: `ok` is a success (`res.status(s).json({success:
true, data, message})`), `list` the list-endpoint success with its
pagination block, `err` a failure (`res.status(s).json({success: false,
error, details})`; an absent `details` field is the empty list). -/
inductive Resp where
  | ok (status : Nat) (data : Option TimeEntry) (message : Option String)
  | list (data : List TimeEntry) (pagination : Pagination)
  | err (status : Nat) (error : String) (details : List String)
deriving DecidableEq, Repr

/-- JS truthiness of an optional string: `undefined` and the empty string
are falsy, every other string is truthy. -/
def jsTruthy (v : Option String) : Bool :=
  match v with
  | none => false
  | some s => s ≠ ""

/-- JS `v || d` for an optional string `v`. -/
def jsOrString (v : Option String) (d : String) : String :=
  match v with
  | none => d
  | some s => if s = "" then d else s

/-- JS / Joi / mongoose whitespace trimming, by structural recursion over
the character list (`String.trim` from the core library is
kernel-opaque). -/
def jsTrim (s : String) : String :=
  String.mk
    (((s.data.dropWhile Char.isWhitespace).reverse.dropWhile
        Char.isWhitespace).reverse)

/-- Hex-digit test used by ObjectId validity. -/
def isHexChar (c : Char) : Bool :=
  c.isDigit || ('a' ≤ c && c ≤ 'f') || ('A' ≤ c && c ≤ 'F')

/-- Mongoose `ObjectId` castability: a 24-character hex string (or any
12-character string, which casts byte-wise).  A request id failing this
makes the store operations throw a `CastError`. -/
def isValidObjectId (s : String) : Bool :=
  s.length == 12 || (s.length == 24 && s.toList.all isHexChar)

/-- The mongoose validator on the `hours` path
(`hours.length === 7 && hours.every(h => h >= 0 && h <= 24)`). -/
def mongooseHoursOk (hs : List ℚ) : Bool :=
  hs.length == 7 && hs.all (fun h => decide (0 ≤ h) && decide (h ≤ 24))

/-- The document-level mongoose validation run by `save()`, returning the
per-field messages of a `ValidationError` (empty when the document is
valid).  `userId` is trimmed then required, `hours` uses the custom
validator, `notes` has `maxlength` 1000. -/
def mongooseEntryErrors (e : TimeEntry) : List String :=
  (if jsTrim e.userId = "" then ["User ID is required"] else []) ++
  (if mongooseHoursOk e.hours then []
   else ["Hours must be an array of 7 numbers between 0 and 24"]) ++
  (if e.notes.length ≤ 1000 then []
   else ["Notes cannot be more than 1000 characters"])

/-- The duplicate-entry probe of `createTimeEntry`:
`TimeEntry.findOne({userId, weekStart})`. -/
def findDuplicate (store : Store) (userId : String) (weekStart : DateMs) :
    Option TimeEntry :=
  store.find? fun e => e.userId == userId && e.weekStart == weekStart

/-- The request body as read by `createTimeEntry` after schema validation:
the required fields are present; `submittedAt`, `approvedAt` and
`approvedBy` may sit in the raw body but are never destructured by the
controller. -/
structure CreateBody where
  userId : String
  weekStart : DateMs
  weekEnd : DateMs
  hours : List ℚ
  notes : Option String := none
  status : Option Status := none
  submittedAt : Option DateMs := none
  approvedAt : Option DateMs := none
  approvedBy : Option String := none
deriving DecidableEq, Repr

/-- `createTimeEntry` (controller lines 93-155): reads `userId`,
`weekStart`, `weekEnd`, `hours`, `notes`, `status` from the body; rejects a
duplicate (userId, weekStart) with a 400; otherwise builds the new document
with `notes || ''`, `status || 'draft'`, and `submittedAt` stamped to the
current time exactly when the supplied status is `submitted`; `save()`
either appends the document or raises the mongoose `ValidationError`
translated to a 400 with per-field details. -/
def createTimeEntry (now : DateMs) (newId : String) (store : Store)
    (b : CreateBody) : Resp × Store :=
  match findDuplicate store b.userId b.weekStart with
  | some _ => (.err 400 "Time entry already exists for this week" [], store)
  | none =>
    let entry : TimeEntry :=
      { id := newId
        userId := b.userId
        weekStart := b.weekStart
        weekEnd := b.weekEnd
        hours := b.hours
        notes := jsOrString b.notes ""
        status := b.status.getD .draft
        submittedAt := if b.status = some .submitted then some now else none
        approvedAt := none
        approvedBy := none }
    let errs := mongooseEntryErrors entry
    if errs = [] then
      (.ok 201 (some entry) (some "Time entry created successfully"),
       store ++ [entry])
    else
      (.err 400 "Validation failed" errs, store)

/-- The raw create body before schema validation: every field optional. -/
structure RawCreateBody where
  userId : Option String := none
  weekStart : Option DateMs := none
  weekEnd : Option DateMs := none
  hours : Option (List ℚ) := none
  notes : Option String := none
  status : Option Status := none
  submittedAt : Option DateMs := none
  approvedAt : Option DateMs := none
  approvedBy : Option String := none
deriving DecidableEq, Repr

/-- Joi item messages for `hours: Joi.array().items(Joi.number().min(0).max(24))`,
one message per out-of-range element, indexed from `i`. -/
def joiHoursItemErrors : Nat → List ℚ → List String
  | _, [] => []
  | i, h :: rest =>
    (if h < 0 then
       ["\"hours[" ++ toString i ++ "]\" must be greater than or equal to 0"]
     else if 24 < h then
       ["\"hours[" ++ toString i ++ "]\" must be less than or equal to 24"]
     else []) ++ joiHoursItemErrors (i + 1) rest

/-- Joi messages for a supplied `hours` value under
`Joi.array().items(Joi.number().min(0).max(24)).length(7)` with
`abortEarly: false`: all item violations, plus the length violation. -/
def joiHoursErrors (hs : List ℚ) : List String :=
  joiHoursItemErrors 0 hs ++
    (if hs.length = 7 then [] else ["\"hours\" must contain 7 items"])

/-- Joi messages for a supplied `notes` value under
`Joi.string().max(1000)`: a Joi string rejects the empty string, and `max`
bounds the length. -/
def joiNotesErrors (s : String) : List String :=
  (if s = "" then ["\"notes\" is not allowed to be empty"] else []) ++
  (if s.length ≤ 1000 then []
   else ["\"notes\" length must be less than or equal to 1000 characters long"])

/-- The error list Joi produces for `timeEntrySchemas.create.body`
(`abortEarly: false`, so every field is checked): `userId` required
non-empty after trim, `weekStart`/`weekEnd` required dates, `hours`
required with the 7-element/range rule, `notes` optional bounded string,
`status` an optional member of the enum (always satisfied in this typed
model).  Unknown fields (`allowUnknown: true`) raise no error. -/
def joiCreateBodyErrors (b : RawCreateBody) : List String :=
  (match b.userId with
   | none => ["\"userId\" is required"]
   | some s => if jsTrim s = "" then ["\"userId\" is not allowed to be empty"] else []) ++
  (match b.weekStart with
   | none => ["\"weekStart\" is required"]
   | some _ => []) ++
  (match b.weekEnd with
   | none => ["\"weekEnd\" is required"]
   | some _ => []) ++
  (match b.hours with
   | none => ["\"hours\" is required"]
   | some hs => joiHoursErrors hs) ++
  (match b.notes with
   | none => []
   | some s => joiNotesErrors s)

/-- The update body (`timeEntrySchemas.update.body`): every field optional. -/
structure UpdateBody where
  userId : Option String := none
  weekStart : Option DateMs := none
  weekEnd : Option DateMs := none
  hours : Option (List ℚ) := none
  notes : Option String := none
  status : Option Status := none
  submittedAt : Option DateMs := none
  approvedAt : Option DateMs := none
  approvedBy : Option String := none
deriving DecidableEq, Repr

/-- The mongoose update validation triggered by `runValidators: true` on
`findByIdAndUpdate`: each supplied path is validated with its schema rule. -/
def mongooseUpdateErrors (u : UpdateBody) : List String :=
  (match u.userId with
   | none => []
   | some s => if jsTrim s = "" then ["User ID is required"] else []) ++
  (match u.hours with
   | none => []
   | some hs =>
     if mongooseHoursOk hs then []
     else ["Hours must be an array of 7 numbers between 0 and 24"]) ++
  (match u.notes with
   | none => []
   | some s =>
     if s.length ≤ 1000 then []
     else ["Notes cannot be more than 1000 characters"])

/-- Mongo `$set` application of an update document to a stored document:
every supplied path is overwritten, every other path keeps its value. -/
def applyUpdates (e : TimeEntry) (u : UpdateBody) : TimeEntry :=
  { e with
    userId := u.userId.getD e.userId
    weekStart := u.weekStart.getD e.weekStart
    weekEnd := u.weekEnd.getD e.weekEnd
    hours := u.hours.getD e.hours
    notes := u.notes.getD e.notes
    status := u.status.getD e.status
    submittedAt := match u.submittedAt with
      | some t => some t
      | none => e.submittedAt
    approvedAt := match u.approvedAt with
      | some t => some t
      | none => e.approvedAt
    approvedBy := match u.approvedBy with
      | some s => some s
      | none => e.approvedBy }

/-- The status side-effect at the head of `updateTimeEntry` (lines 162-164):
`if (updates.status === 'submitted' && !updates.submittedAt)
  updates.submittedAt = new Date()`. -/
def stampSubmitted (now : DateMs) (u0 : UpdateBody) : UpdateBody :=
  if u0.status == some Status.submitted && u0.submittedAt == none then
    { u0 with submittedAt := some now }
  else u0

/-- `updateTimeEntry` (controller lines 157-209): first the status
side-effect, then `findByIdAndUpdate(id, {...updates}, {new: true,
runValidators: true})`: a malformed id raises `CastError` (400), an
invalid update raises `ValidationError` (400 with details), an unresolved
id yields null (404, store untouched), otherwise the matched document is
overwritten with the `$set` result and returned. -/
def updateTimeEntry (now : DateMs) (store : Store) (id : String)
    (u0 : UpdateBody) : Resp × Store :=
  let u := stampSubmitted now u0
  if isValidObjectId id then
    let errs := mongooseUpdateErrors u
    if errs = [] then
      match store.find? (fun e => e.id == id) with
      | none => (.err 404 "Time entry not found" [], store)
      | some e =>
        let e' := applyUpdates e u
        (.ok 200 (some e') (some "Time entry updated successfully"),
         store.map (fun x => if x.id == id then e' else x))
    else
      (.err 400 "Validation failed" errs, store)
  else
    (.err 400 "Invalid time entry ID" [], store)

/-- `getTimeEntryById` (controller lines 60-91): `findById` raises
`CastError` on a malformed id (400 'Invalid time entry ID'), resolves to
null for an absent id (404 'Time entry not found'), otherwise returns the
document. -/
def getTimeEntryById (store : Store) (id : String) : Resp :=
  if isValidObjectId id then
    match store.find? (fun e => e.id == id) with
    | none => .err 404 "Time entry not found" []
    | some e => .ok 200 (some e) none
  else
    .err 400 "Invalid time entry ID" []

/-- `deleteTimeEntry` (controller lines 211-242): `findByIdAndDelete` with
the same CastError/null/document trichotomy; on success the document is
removed and only a message is returned. -/
def deleteTimeEntry (store : Store) (id : String) : Resp × Store :=
  if isValidObjectId id then
    match store.find? (fun e => e.id == id) with
    | none => (.err 404 "Time entry not found" [], store)
    | some _ =>
      (.ok 200 none (some "Time entry deleted successfully"),
       store.filter (fun e => !(e.id == id)))
  else
    (.err 400 "Invalid time entry ID" [], store)

/-- `getTimeEntryForWeek` (controller lines 244-273): both query parameters
are checked by JS truthiness (`!userId || !weekStart`), so an absent or
empty parameter yields the 400 'userId and weekStart are required' response
before any store access; otherwise `findOne({userId, weekStart: new
Date(weekStart)})` runs and `data` is the document or null.  `parseDate`
models `new Date` on the raw query string. -/
def getTimeEntryForWeek (parseDate : String → DateMs) (store : Store)
    (userId : Option String) (weekStart : Option String) : Resp :=
  if !(jsTruthy userId) || !(jsTruthy weekStart) then
    .err 400 "userId and weekStart are required" []
  else
    .ok 200
      (store.find? fun e =>
        e.userId == userId.getD "" &&
        e.weekStart == parseDate (weekStart.getD "")) none

/-- The `success` field of a response envelope. -/
def successFlag : Resp → Bool
  | .ok _ _ _ => true
  | .list _ _ => true
  | .err _ _ _ => false

/-- The validated list query (`timeEntrySchemas.list.query`). -/
structure ListQuery where
  userId : Option String := none
  status : Option Status := none
  weekStart : Option DateMs := none
  weekEnd : Option DateMs := none
  limit : Option Nat := none
  page : Option Nat := none
deriving DecidableEq, Repr

/-- The Mongo filter object built by `getTimeEntries` (a possible equality
constraint on `userId` and `status`, and `$gte`/`$lte` bounds on
`weekStart`). -/
structure MongoQuery where
  userId : Option String := none
  status : Option Status := none
  weekStartGte : Option DateMs := none
  weekStartLte : Option DateMs := none
deriving DecidableEq, Repr

/-- The filter-building if-chain of `getTimeEntries` (controller lines
9-27).  `if (userId)` is JS truthiness on the query string, `if (status)`
is truthiness of a validated enum string (always non-empty), and the
`weekStart` bounds are set when either raw date parameter is supplied. -/
def buildListQuery (q : ListQuery) : MongoQuery :=
  let query : MongoQuery := {}
  let query := if jsTruthy q.userId then { query with userId := q.userId } else query
  let query := if q.status.isSome then { query with status := q.status } else query
  let query :=
    if q.weekStart.isSome || q.weekEnd.isSome then
      { query with weekStartGte := q.weekStart, weekStartLte := q.weekEnd }
    else query
  query

/-- Whether a stored document matches a Mongo filter object. -/
def matchesQuery (q : MongoQuery) (e : TimeEntry) : Bool :=
  (match q.userId with
   | none => true
   | some u => e.userId == u) &&
  (match q.status with
   | none => true
   | some s => e.status == s) &&
  (match q.weekStartGte with
   | none => true
   | some d => decide (d ≤ e.weekStart)) &&
  (match q.weekStartLte with
   | none => true
   | some d => decide (e.weekStart ≤ d))

/-- The sort key of `.sort({ weekStart: -1 })`: descending `weekStart`. -/
def weekDesc (a b : TimeEntry) : Prop := b.weekStart ≤ a.weekStart

instance : DecidableRel weekDesc := fun a b =>
  inferInstanceAs (Decidable (b.weekStart ≤ a.weekStart))

instance : IsTotal TimeEntry weekDesc :=
  ⟨fun a b => le_total b.weekStart a.weekStart⟩

instance : IsTrans TimeEntry weekDesc :=
  ⟨fun _ _ _ hab hbc => le_trans hbc hab⟩

/-- `Math.ceil(a / b)` on natural counts with a positive divisor. -/
def mathCeilDiv (a b : Nat) : Nat := (a + b - 1) / b

/-- `getTimeEntries` (controller lines 4-58): destructures the query with
defaults `limit = 50`, `page = 1`, builds the filter, runs
`find(query).sort({weekStart: -1}).skip((page-1)*limit).limit(limit)`,
counts the matching documents, and reports the pagination block with
`pages = Math.ceil(total / limit)`. -/
def getTimeEntries (store : Store) (q : ListQuery) : Resp :=
  let query := buildListQuery q
  let limit := q.limit.getD 50
  let page := q.page.getD 1
  let skip := (page - 1) * limit
  let matched := store.filter (matchesQuery query)
  let timeEntries := ((matched.insertionSort weekDesc).drop skip).take limit
  let total := matched.length
  .list timeEntries
    { page := page, limit := limit, total := total,
      pages := mathCeilDiv total limit }

/-- An Express request as seen by the validation middleware: a body, a
query and path params section. -/
structure MWRequest (B Q P : Type) where
  body : B
  query : Q
  params : P
deriving DecidableEq, Repr

/-- A `ValidationSchema` (`src/middleware/validation.ts` lines 4-8): an
optional checker per section, each returning the Joi messages with
`abortEarly: false`. -/
structure MWSchema (B Q P : Type) where
  body? : Option (B → List String) := none
  query? : Option (Q → List String) := none
  params? : Option (P → List String) := none

/-- Run one optional section checker (`if (schema.body) { ... }`). -/
def sectionErrors {α : Type} (f? : Option (α → List String)) (x : α) : List String :=
  match f? with
  | some f => f x
  | none => []

/-- What the middleware does with a request: answer 400 itself, or hand the
request to the next handler. -/
inductive MWOutcome (B Q P : Type) where
  | response (status : Nat) (error : String) (details : List String)
  | next (req : MWRequest B Q P)
deriving DecidableEq, Repr

/-- The `validate` middleware (`src/middleware/validation.ts` lines 10-51):
checks body, then query, then params, concatenating all messages; on any
message answers 400 `Validation failed` with the full list; otherwise calls
`next()`.  The request object itself is never reassigned — Joi's converted
`value` is discarded — so the downstream handler sees the request
unchanged. -/
def validate (schema : MWSchema B Q P) (req : MWRequest B Q P) :
    MWOutcome B Q P :=
  let errors :=
    sectionErrors schema.body? req.body ++
    sectionErrors schema.query? req.query ++
    sectionErrors schema.params? req.params
  if errors.length > 0 then .response 400 "Validation failed" errors
  else .next req

/-- A route `validate(schema), handler`: the handler runs only when the
middleware calls `next()`. -/
def runRoute (schema : MWSchema B Q P) (handler : MWRequest B Q P → R)
    (onError : Nat → String → List String → R) (req : MWRequest B Q P) : R :=
  match validate schema req with
  | .next r => handler r
  | .response s e d => onError s e d

/-- `timeEntrySchemas.create` bound into the middleware: only a body
schema. -/
def createMWSchema : MWSchema RawCreateBody Unit Unit :=
  { body? := some joiCreateBodyErrors }

/-- Spec-side list filter, written from the specification's words: "a
conjunctive filter from exactly the filter fields present (userId, status,
and inclusive lower/upper bounds on weekStart; omitted fields impose no
constraint)" — one conjunct per supplied field, read directly off the
request. -/
def specListMatches (q : ListQuery) (e : TimeEntry) : Bool :=
  (match q.userId with
   | none => true
   | some u => e.userId == u) &&
  (match q.status with
   | none => true
   | some s => e.status == s) &&
  (match q.weekStart with
   | none => true
   | some d => decide (d ≤ e.weekStart)) &&
  (match q.weekEnd with
   | none => true
   | some d => decide (e.weekStart ≤ d))

/-- A sample stored entry used to instantiate theorems on concrete data. -/
def wEntry : TimeEntry :=
  { id := "0123456789abcdef01234567"
    userId := "user123"
    weekStart := 1704067200000
    weekEnd := 1704671999000
    hours := [8, 8, 8, 8, 8, 0, 0]
    notes := ""
    status := .draft
    submittedAt := none
    approvedAt := none
    approvedBy := none }

/-- A second sample entry (another user, later week). -/
def wEntry2 : TimeEntry :=
  { id := "89abcdef0123456789abcdef"
    userId := "user456"
    weekStart := 1704672000000
    weekEnd := 1705276799000
    hours := [0, 8, 8, 8, 8, 8, 0]
    notes := "second"
    status := .submitted
    submittedAt := some 1704672000001
    approvedAt := none
    approvedBy := none }

/-- A sample create body sharing `wEntry`'s (userId, weekStart) key. -/
def wCreateBody : CreateBody :=
  { userId := "user123"
    weekStart := 1704067200000
    weekEnd := 1704671999000
    hours := [8, 8, 8, 8, 8, 0, 0] }

/-- A raw create body that passes validation while leaving `status` and
`notes` unsupplied. -/
def c8Body : RawCreateBody :=
  { userId := some "user123"
    weekStart := some 1704067200000
    weekEnd := some 1704671999000
    hours := some [8, 8, 8, 8, 8, 0, 0] }

/-- A sample two-entry store. -/
def c4Store : Store := [wEntry, wEntry2]

/-- A list query filtering on one user. -/
def c4Query : ListQuery := { userId := some "user123" }

/-! ### Helper lemmas -/

theorem createTimeEntry_ok_shape (now : DateMs) (newId : String)
    (store : Store) (b : CreateBody) (e : TimeEntry) (m : Option String)
    (st' : Store)
    (h : createTimeEntry now newId store b = (.ok 201 (some e) m, st')) :
    e = { id := newId, userId := b.userId, weekStart := b.weekStart,
          weekEnd := b.weekEnd, hours := b.hours,
          notes := jsOrString b.notes "",
          status := b.status.getD Status.draft,
          submittedAt := if b.status = some Status.submitted then some now else none,
          approvedAt := none, approvedBy := none } := by
  rw [createTimeEntry] at h
  cases hcase : findDuplicate store b.userId b.weekStart with
  | some x' => rw [hcase] at h; simp at h
  | none =>
    rw [hcase] at h
    simp only [] at h
    by_cases herr : mongooseEntryErrors
        { id := newId, userId := b.userId, weekStart := b.weekStart,
          weekEnd := b.weekEnd, hours := b.hours,
          notes := jsOrString b.notes "",
          status := b.status.getD Status.draft,
          submittedAt := if b.status = some Status.submitted then some now else none,
          approvedAt := none, approvedBy := none } = []
    · rw [if_pos herr, Prod.mk.injEq] at h
      obtain ⟨h1, -⟩ := h
      rw [Resp.ok.injEq] at h1
      obtain ⟨-, h2, -⟩ := h1
      rw [Option.some.injEq] at h2
      exact h2.symm
    · rw [if_neg herr, Prod.mk.injEq] at h
      obtain ⟨h1, -⟩ := h
      simp at h1

theorem validate_eq_response {B Q P : Type} (schema : MWSchema B Q P)
    (req : MWRequest B Q P)
    (h : sectionErrors schema.body? req.body ++
         sectionErrors schema.query? req.query ++
         sectionErrors schema.params? req.params ≠ []) :
    validate schema req =
      .response 400 "Validation failed"
        (sectionErrors schema.body? req.body ++
         sectionErrors schema.query? req.query ++
         sectionErrors schema.params? req.params) := by
  rw [validate]
  rw [if_pos (List.length_pos.2 h)]

theorem validate_eq_next {B Q P : Type} (schema : MWSchema B Q P)
    (req : MWRequest B Q P)
    (h : sectionErrors schema.body? req.body ++
         sectionErrors schema.query? req.query ++
         sectionErrors schema.params? req.params = []) :
    validate schema req = .next req := by
  rw [validate]
  rw [if_neg]
  rw [h]
  simp

/-- C1: a Create whose (userId, weekStart) key matches an entry already in
the store returns the 400 `Time entry already exists for this week`
response and leaves the whole store — in particular the pre-existing
entry — unchanged. -/
theorem C1_duplicate_create_rejected_and_writes_nothing
    (now : DateMs) (newId : String) (store : Store) (b : CreateBody)
    (hdup : ∃ e ∈ store, e.userId = b.userId ∧ e.weekStart = b.weekStart) :
    createTimeEntry now newId store b =
      (.err 400 "Time entry already exists for this week" [], store) := by
  obtain ⟨e, he, hu, hw⟩ := hdup
  have hfd : (findDuplicate store b.userId b.weekStart).isSome := by
    rw [findDuplicate, List.find?_isSome]
    exact ⟨e, he, by simp [hu, hw]⟩
  rw [createTimeEntry]
  cases hcase : findDuplicate store b.userId b.weekStart with
  | none => rw [hcase] at hfd; simp at hfd
  | some x => simp

/-- Witness for C1 at concrete data. -/
theorem C1_witness :
    createTimeEntry 0 "ffffffffffffffffffffffff" [wEntry] wCreateBody =
      (.err 400 "Time entry already exists for this week" [], [wEntry]) :=
  C1_duplicate_create_rejected_and_writes_nothing 0 "ffffffffffffffffffffffff"
    [wEntry] wCreateBody ⟨wEntry, by simp, by decide, by decide⟩

/-! ### C10 -/

/-- C10: Create reads only userId, weekStart, weekEnd, hours, notes and
status from the body — the outcome is invariant under any supplied
`submittedAt`, `approvedAt`, `approvedBy` — and any entry it creates has
`approvedAt` and `approvedBy` unset. -/
theorem C10_create_ignores_approval_fields
    (now : DateMs) (newId : String) (store : Store) (b : CreateBody)
    (x y : Option DateMs) (z : Option String) :
    createTimeEntry now newId store
        { b with submittedAt := x, approvedAt := y, approvedBy := z } =
      createTimeEntry now newId store b ∧
    ∀ e m st', createTimeEntry now newId store b = (.ok 201 (some e) m, st') →
      e.approvedAt = none ∧ e.approvedBy = none := by
  refine ⟨rfl, ?_⟩
  intro e m st' h
  rw [createTimeEntry_ok_shape now newId store b e m st' h]
  exact ⟨rfl, rfl⟩

/-- Witness for C10 at concrete data. -/
theorem C10_witness :
    createTimeEntry 7 "ffffffffffffffffffffffff" [] wCreateBody =
      createTimeEntry 7 "ffffffffffffffffffffffff" []
        { wCreateBody with submittedAt := some 3, approvedAt := some 4,
                           approvedBy := some "boss" } ∧
    ({ wEntry with id := "ffffffffffffffffffffffff" } : TimeEntry).approvedAt = none ∧
    ({ wEntry with id := "ffffffffffffffffffffffff" } : TimeEntry).approvedBy = none := by
  obtain ⟨h1, h2⟩ := C10_create_ignores_approval_fields 7 "ffffffffffffffffffffffff"
    [] wCreateBody (some 3) (some 4) (some "boss")
  exact ⟨h1.symm,
    h2 { wEntry with id := "ffffffffffffffffffffffff" }
      (some "Time entry created successfully")
      [{ wEntry with id := "ffffffffffffffffffffffff" }] (by decide)⟩

/-! ### C3 -/

/-- C5 counterexample: with both query parameters present but `userId`
equal to the empty string, GetForWeek answers the MissingParameters error,
not the empty success result the claim requires for a present-but-unmatched
pair. -/
theorem C5_counterexample :
    getTimeEntryForWeek (fun _ => 0) [] (some "") (some "2024-01-01") =
      .err 400 "userId and weekStart are required" [] ∧
    Resp.err 400 "userId and weekStart are required" [] ≠
      Resp.ok 200 none none := by
  decide

/-- C5 (amended): if either `userId` or `weekStart` is absent or empty
(JS-falsy), GetForWeek answers 400 `userId and weekStart are required` —
the right-hand side of the equation is a constant, so the store is never
consulted; if both are present and non-empty, it answers a 200 success
whose data is the looked-up entry or null, and in particular a success
with null data (not an error) when no entry matches the pair. -/
theorem C5_week_lookup (parseDate : String → DateMs) (store : Store)
    (userId weekStart : Option String) :
    (jsTruthy userId = false ∨ jsTruthy weekStart = false →
      getTimeEntryForWeek parseDate store userId weekStart =
        .err 400 "userId and weekStart are required" []) ∧
    (jsTruthy userId = true → jsTruthy weekStart = true →
      getTimeEntryForWeek parseDate store userId weekStart =
        .ok 200
          (store.find? fun e =>
            e.userId == userId.getD "" &&
            e.weekStart == parseDate (weekStart.getD "")) none) ∧
    (jsTruthy userId = true → jsTruthy weekStart = true →
      (∀ e ∈ store, ¬(e.userId = userId.getD "" ∧
          e.weekStart = parseDate (weekStart.getD ""))) →
      getTimeEntryForWeek parseDate store userId weekStart =
        .ok 200 none none ∧
      successFlag (Resp.ok 200 none none) = true) := by
  refine ⟨?_, ?_, ?_⟩
  · intro h
    rw [getTimeEntryForWeek, if_pos]
    rcases h with h | h <;> simp [h]
  · intro h1 h2
    rw [getTimeEntryForWeek, if_neg]
    simp [h1, h2]
  · intro h1 h2 hnone
    have hf : store.find? (fun e =>
        e.userId == userId.getD "" &&
        e.weekStart == parseDate (weekStart.getD "")) = none := by
      rw [List.find?_eq_none]
      intro e he hcontra
      exact hnone e he (by simpa using hcontra)
    refine ⟨?_, rfl⟩
    rw [getTimeEntryForWeek, if_neg]
    · rw [hf]
    · simp [h1, h2]

/-- Witness for C5's amended rule at concrete data. -/
theorem C5_witness :
    getTimeEntryForWeek (fun _ => 0) [wEntry] (some "user123") none =
      .err 400 "userId and weekStart are required" [] ∧
    getTimeEntryForWeek (fun _ => 0) [wEntry] (some "user999")
        (some "2024-01-01") = .ok 200 none none :=
  ⟨(C5_week_lookup (fun _ => 0) [wEntry] (some "user123") none).1
      (Or.inr rfl),
   ((C5_week_lookup (fun _ => 0) [wEntry] (some "user999")
      (some "2024-01-01")).2.2 (by decide) (by decide) (by decide)).1⟩

/-! ### C6 -/

/-- C6: for the id-addressed operations (GetById, Update, Delete), a
malformed identifier yields the 400 `Invalid time entry ID` outcome and a
well-formed identifier resolving to no entry yields the 404
`Time entry not found` outcome — never one in place of the other — and in
both cases the store is untouched.  (For Update the request body is assumed
to pass the store's update validation, which otherwise answers its own
400.) -/
theorem C6_invalid_vs_absent_id (now : DateMs) (store : Store) (id : String)
    (u : UpdateBody)
    (hu : mongooseUpdateErrors (stampSubmitted now u) = []) :
    (isValidObjectId id = false →
      getTimeEntryById store id = .err 400 "Invalid time entry ID" [] ∧
      deleteTimeEntry store id =
        (.err 400 "Invalid time entry ID" [], store) ∧
      updateTimeEntry now store id u =
        (.err 400 "Invalid time entry ID" [], store)) ∧
    (isValidObjectId id = true →
      store.find? (fun e => e.id == id) = none →
      getTimeEntryById store id = .err 404 "Time entry not found" [] ∧
      deleteTimeEntry store id =
        (.err 404 "Time entry not found" [], store) ∧
      updateTimeEntry now store id u =
        (.err 404 "Time entry not found" [], store)) := by
  constructor
  · intro hbad
    refine ⟨?_, ?_, ?_⟩
    · rw [getTimeEntryById, if_neg (by simp [hbad])]
    · rw [deleteTimeEntry, if_neg (by simp [hbad])]
    · simp only [updateTimeEntry]
      rw [if_neg (by simp [hbad])]
  · intro hok hfind
    refine ⟨?_, ?_, ?_⟩
    · rw [getTimeEntryById, if_pos hok, hfind]
    · rw [deleteTimeEntry, if_pos hok, hfind]
    · simp only [updateTimeEntry]
      rw [if_pos hok, if_pos hu, hfind]

/-- Witness for C6 at concrete data: a malformed id and a well-formed but
absent id. -/
theorem C6_witness :
    (getTimeEntryById [wEntry] "zz" = .err 400 "Invalid time entry ID" [] ∧
     deleteTimeEntry [wEntry] "zz" =
       (.err 400 "Invalid time entry ID" [], [wEntry]) ∧
     updateTimeEntry 0 [wEntry] "zz" ({} : UpdateBody) =
       (.err 400 "Invalid time entry ID" [], [wEntry])) ∧
    (getTimeEntryById [wEntry] "ffffffffffffffffffffffff" =
       .err 404 "Time entry not found" [] ∧
     deleteTimeEntry [wEntry] "ffffffffffffffffffffffff" =
       (.err 404 "Time entry not found" [], [wEntry]) ∧
     updateTimeEntry 0 [wEntry] "ffffffffffffffffffffffff" ({} : UpdateBody) =
       (.err 404 "Time entry not found" [], [wEntry])) :=
  ⟨(C6_invalid_vs_absent_id 0 [wEntry] "zz" {} (by decide)).1 (by decide),
   (C6_invalid_vs_absent_id 0 [wEntry] "ffffffffffffffffffffffff" {}
      (by decide)).2 (by decide) (by decide)⟩

/-! ### C7 -/

/-- C7: the validation middleware evaluates body, query and params in that
order, collects the violations of all three sections rather than stopping
at the first, and on any violation answers 400 `Validation failed` carrying
the full ordered message list, without invoking the downstream handler
(the route's outcome is the same whatever handler is installed). -/
theorem C7_validate_collects_all {B Q P R : Type} (schema : MWSchema B Q P)
    (req : MWRequest B Q P)
    (h : sectionErrors schema.body? req.body ++
         sectionErrors schema.query? req.query ++
         sectionErrors schema.params? req.params ≠ []) :
    validate schema req =
      .response 400 "Validation failed"
        (sectionErrors schema.body? req.body ++
         sectionErrors schema.query? req.query ++
         sectionErrors schema.params? req.params) ∧
    ∀ (handler1 handler2 : MWRequest B Q P → R)
      (onError : Nat → String → List String → R),
      runRoute schema handler1 onError req =
        onError 400 "Validation failed"
          (sectionErrors schema.body? req.body ++
           sectionErrors schema.query? req.query ++
           sectionErrors schema.params? req.params) ∧
      runRoute schema handler1 onError req =
        runRoute schema handler2 onError req := by
  have hv := validate_eq_response schema req h
  refine ⟨hv, ?_⟩
  intro handler1 handler2 onError
  rw [runRoute, hv, runRoute, hv]
  exact ⟨rfl, rfl⟩

/-- Witness for C7 at concrete data: an empty body violates all four
required create-body rules; the route answers through `onError` alone. -/
theorem C7_witness :
    validate createMWSchema
        { body := ({} : RawCreateBody), query := (), params := () } =
      .response 400 "Validation failed"
        (sectionErrors createMWSchema.body? ({} : RawCreateBody) ++
         sectionErrors createMWSchema.query? () ++
         sectionErrors createMWSchema.params? ()) ∧
    runRoute createMWSchema (fun _ => (0 : Nat))
        (fun s _ d => s + d.length)
        { body := ({} : RawCreateBody), query := (), params := () } =
      400 + (sectionErrors createMWSchema.body? ({} : RawCreateBody) ++
         sectionErrors createMWSchema.query? () ++
         sectionErrors createMWSchema.params? ()).length :=
  have t := C7_validate_collects_all createMWSchema
    { body := ({} : RawCreateBody), query := (), params := () } (by decide)
  ⟨t.1, (t.2 (fun _ => 0) (fun _ => 1) (fun s _ d => s + d.length)).1⟩

/-! ### C8 -/

/-- C8 counterexample: a valid create request with `status` and `notes`
missing passes the middleware with the request object unchanged — the
handler receives `status = none`, not the normalized `draft` the claim
promises. -/
theorem C8_counterexample :
    validate createMWSchema { body := c8Body, query := (), params := () } =
      .next { body := c8Body, query := (), params := () } ∧
    c8Body.status = none ∧ c8Body.notes = none ∧
    (none : Option Status) ≠ some Status.draft := by
  decide

/-- C8 (amended): on success the validation middleware passes the request
onward unchanged (Joi's converted value is discarded); the defaults are
applied by the downstream handlers instead — `createTimeEntry` substitutes
status `draft` and empty notes, and `getTimeEntries` substitutes page 1 and
limit 50 — so the persisted entry and the pagination block, not the
request, carry the normalized values. -/
theorem C8_defaults_applied_downstream (now : DateMs) (newId : String)
    (store : Store) :
    (∀ {B Q P : Type} (schema : MWSchema B Q P) (req : MWRequest B Q P),
      sectionErrors schema.body? req.body ++
      sectionErrors schema.query? req.query ++
      sectionErrors schema.params? req.params = [] →
      validate schema req = .next req) ∧
    (∀ (b : CreateBody) (e : TimeEntry) (m : Option String) (st' : Store),
      b.status = none → b.notes = none →
      createTimeEntry now newId store b = (.ok 201 (some e) m, st') →
      e.status = Status.draft ∧ e.notes = "") ∧
    (∀ (q : ListQuery) (data : List TimeEntry) (pag : Pagination),
      q.page = none → q.limit = none →
      getTimeEntries store q = .list data pag →
      pag.page = 1 ∧ pag.limit = 50) := by
  refine ⟨?_, ?_, ?_⟩
  · intro B Q P schema req h
    exact validate_eq_next schema req h
  · intro b e m st' hst hnotes h
    rw [createTimeEntry_ok_shape now newId store b e m st' h]
    simp [hst, hnotes, jsOrString]
  · intro q data pag hpage hlimit h
    rw [getTimeEntries] at h
    rw [Resp.list.injEq] at h
    obtain ⟨-, h2⟩ := h
    rw [← h2]
    simp [hpage, hlimit]

/-- Witness for C8's amended rule at concrete data. -/
theorem C8_witness :
    validate createMWSchema { body := c8Body, query := (), params := () } =
      .next { body := c8Body, query := (), params := () } ∧
    (({ wEntry with id := "ffffffffffffffffffffffff" } : TimeEntry).status =
        Status.draft ∧
     ({ wEntry with id := "ffffffffffffffffffffffff" } : TimeEntry).notes = "") ∧
    (Pagination.mk 1 50 0 (mathCeilDiv 0 50)).page = 1 ∧
    (Pagination.mk 1 50 0 (mathCeilDiv 0 50)).limit = 50 :=
  have t := C8_defaults_applied_downstream 7 "ffffffffffffffffffffffff" []
  ⟨t.1 createMWSchema { body := c8Body, query := (), params := () } (by decide),
   t.2.1 wCreateBody { wEntry with id := "ffffffffffffffffffffffff" }
     (some "Time entry created successfully")
     [{ wEntry with id := "ffffffffffffffffffffffff" }] rfl rfl (by decide),
   t.2.2 ({} : ListQuery) [] (Pagination.mk 1 50 0 (mathCeilDiv 0 50))
     rfl rfl (by decide)⟩

/-! ### C2 -/

theorem matchesQuery_buildListQuery (q : ListQuery) (e : TimeEntry)
    (hu : q.userId ≠ some "") :
    matchesQuery (buildListQuery q) e = specListMatches q e := by
  rcases hqu : q.userId with _ | u
  · rcases hqs : q.status with _ | s <;>
      rcases hqws : q.weekStart with _ | ws <;>
      rcases hqwe : q.weekEnd with _ | we <;>
      simp [buildListQuery, matchesQuery, specListMatches, jsTruthy,
        hqu, hqs, hqws, hqwe]
  · have hne : u ≠ "" := fun h => hu (by rw [hqu, h])
    rcases hqs : q.status with _ | s <;>
      rcases hqws : q.weekStart with _ | ws <;>
      rcases hqwe : q.weekEnd with _ | we <;>
      simp [buildListQuery, matchesQuery, specListMatches, jsTruthy,
        hqu, hqs, hqws, hqwe, hne]

theorem mathCeilDiv_eq_ceil (t l : Nat) (hl : 1 ≤ l) :
    mathCeilDiv t l = Nat.ceil ((t : ℚ) / (l : ℚ)) := by
  have hl0 : 0 < l := hl
  have hlq : (0 : ℚ) < (l : ℚ) := by exact_mod_cast hl0
  apply le_antisymm
  · rw [mathCeilDiv]
    have hceil : t ≤ l * Nat.ceil ((t : ℚ) / (l : ℚ)) := by
      have h1 : (t : ℚ) / l ≤ (Nat.ceil ((t : ℚ) / l) : ℚ) := Nat.le_ceil _
      rw [div_le_iff₀ hlq, mul_comm] at h1
      exact_mod_cast h1
    apply (Nat.div_le_iff_le_mul_add_pred hl0).2
    generalize hk : l * Nat.ceil ((t : ℚ) / (l : ℚ)) = k at hceil ⊢
    omega
  · apply Nat.ceil_le.2
    rw [div_le_iff₀ hlq]
    have h2 : t ≤ mathCeilDiv t l * l := by
      rw [mathCeilDiv, Nat.mul_comm]
      have hmod := Nat.div_add_mod (t + l - 1) l
      have hmodlt : (t + l - 1) % l < l := Nat.mod_lt _ hl0
      generalize hK : l * ((t + l - 1) / l) = K at hmod ⊢
      generalize hm : (t + l - 1) % l = m at hmod hmodlt
      omega
    exact_mod_cast h2

/-- C4: the list endpoint builds a conjunctive filter from exactly the
supplied filter fields (userId, status, inclusive weekStart bounds; an
omitted field imposes no constraint — stated through `specListMatches`,
read directly off the request), sorts the matching entries by `weekStart`
descending, skips `(page-1)*limit` of them, returns at most `limit`, and
reports the matching total together with `pages = ceil(total/limit)`.
Hypotheses: a supplied `userId` is non-empty and the limit is at least 1,
both guaranteed by the list query schema. -/
theorem C4_list_endpoint (store : Store) (q : ListQuery)
    (hu : q.userId ≠ some "") (hl : 1 ≤ q.limit.getD 50) :
    getTimeEntries store q =
      .list
        ((((store.filter (specListMatches q)).insertionSort weekDesc).drop
            ((q.page.getD 1 - 1) * q.limit.getD 50)).take (q.limit.getD 50))
        { page := q.page.getD 1
          limit := q.limit.getD 50
          total := (store.filter (specListMatches q)).length
          pages := Nat.ceil
            (((store.filter (specListMatches q)).length : ℚ) /
              (q.limit.getD 50 : ℚ)) } ∧
    List.Sorted weekDesc
      ((((store.filter (specListMatches q)).insertionSort weekDesc).drop
          ((q.page.getD 1 - 1) * q.limit.getD 50)).take (q.limit.getD 50)) := by
  have hfilter : store.filter (matchesQuery (buildListQuery q)) =
      store.filter (specListMatches q) :=
    List.filter_congr (fun e _ => matchesQuery_buildListQuery q e hu)
  constructor
  · rw [getTimeEntries, hfilter, mathCeilDiv_eq_ceil _ _ hl]
  · exact (List.sorted_insertionSort weekDesc _).sublist
      ((List.take_sublist _ _).trans (List.drop_sublist _ _))

/-- Witness for C4 at concrete data: a two-entry store filtered on one
user. -/
theorem C4_witness :
    getTimeEntries c4Store c4Query =
      .list
        ((((c4Store.filter (specListMatches c4Query)).insertionSort
              weekDesc).drop
            ((c4Query.page.getD 1 - 1) * c4Query.limit.getD 50)).take
          (c4Query.limit.getD 50))
        { page := c4Query.page.getD 1
          limit := c4Query.limit.getD 50
          total := (c4Store.filter (specListMatches c4Query)).length
          pages := Nat.ceil
            (((c4Store.filter (specListMatches c4Query)).length : ℚ) /
              (c4Query.limit.getD 50 : ℚ)) } ∧
    List.Sorted weekDesc
      ((((c4Store.filter (specListMatches c4Query)).insertionSort
            weekDesc).drop
          ((c4Query.page.getD 1 - 1) * c4Query.limit.getD 50)).take
        (c4Query.limit.getD 50)) :=
  C4_list_endpoint c4Store c4Query (by decide) (by decide)

end Timesheet
